import Mathlib

/-!
Shallow embedding of the `visual-translator` job-processing worker
(`src/worker/job-processor.ts`, with the `updateJobStatus` helper of
`src/worker/translation-worker.ts` and the result schema of
`src/lib/validation.ts`), together with proofs about its orchestration
logic: the concurrency cap on the active-job set, the job status state
machine, fail-fast translation joining, result persistence, the mock OCR
adapter, and the constant translation confidence.

Numbers that are JavaScript `number`s in the source are modelled as `ℚ`
(confidences) and `Int`/`Nat` (pixel coordinates, counts, timestamps).
Outcomes of external calls (database reads/writes, storage downloads,
the Gemini HTTP fetch, `Math.random()` draws, schema validation) are
explicit environment parameters; the control flow acting on those
outcomes is translated statement-by-statement from the source.
-/

deriving instance DecidableEq for Except

namespace VisualTranslator

/-- Char-list test: does `s` start with `pat`?  Used to build the
substring test below (JavaScript `String.prototype.includes`). -/
def charsStartWith : List Char → List Char → Bool
  | _, [] => true
  | [], _ :: _ => false
  | c :: cs, p :: ps => c == p && charsStartWith cs ps

/-- Char-list test: does `pat` occur anywhere in the list? -/
def charsContain : List Char → List Char → Bool
  | [], pat => pat.isEmpty
  | c :: rest, pat => charsStartWith (c :: rest) pat || charsContain rest pat

/-- JavaScript `s.includes(sub)` on the underlying character lists. -/
def includes (s sub : String) : Bool := charsContain s.data sub.data

/-- JavaScript `String.prototype.trim` (whitespace stripped from both
ends), on the underlying character list. -/
def trimStr (s : String) : String :=
  String.mk (((s.data.dropWhile Char.isWhitespace).reverse.dropWhile Char.isWhitespace).reverse)

/-- JavaScript `String.prototype.toLowerCase` (ASCII range), on the
underlying character list. -/
def lowerStr (s : String) : String := String.mk (s.data.map Char.toLower)

/-! ## OCR adapter (`performOCR` and helpers, job-processor.ts lines 49-173) -/

/-- The bounding box of a text block (`bbox` in the `OCRResult` interface). -/
structure Bbox where
  x : Int
  y : Int
  width : Int
  height : Int
deriving Repr, DecidableEq

/-- One OCR text block (element of `OCRResult.blocks`). -/
structure Block where
  id : String
  text : String
  confidence : ℚ
  bbox : Bbox
deriving Repr, DecidableEq

/-- The output of the OCR adapter (`OCRResult` interface). -/
structure OCRResult where
  blocks : List Block
  pages : Nat
  language : Option String
deriving Repr, DecidableEq

/-- Mock content chosen when the MIME type contains `pdf` or `document`
(job-processor.ts lines 96-110). -/
def pdfDocumentContent : List String :=
  ["Document Title: Annual Report 2024",
   "Executive Summary",
   "This report presents our company\x27s achievements and financial performance for the fiscal year 2024.",
   "Key Performance Indicators:",
   "• Revenue increased by 15% compared to previous year",
   "• Customer satisfaction rate: 92%",
   "• Market expansion into 3 new regions",
   "Financial Overview",
   "Total revenue: $2.5 million",
   "Operating expenses: $1.8 million",
   "Net profit: $700,000",
   "Future Outlook",
   "We project continued growth in the coming year with strategic investments in technology and talent."]

/-- Mock content chosen when the MIME type contains `image`
(job-processor.ts lines 112-120). -/
def imageContent : List String :=
  ["Welcome to Our Store",
   "Special Offer: 20% OFF",
   "Valid until December 31st",
   "Terms and conditions apply",
   "Visit us at: www.example.com",
   "Contact: info@example.com",
   "Phone: +1-555-0123"]

/-- Mock content chosen for any other MIME type (job-processor.ts
lines 122-127). -/
def plainContent : List String :=
  ["Sample text document content",
   "This is a plain text file with multiple lines",
   "Each line represents a paragraph or section",
   "Perfect for translation testing purposes"]

/-- The `mockContent` selection of `performOCR` (lines 95-128). -/
def mockContentFor (mimeType : String) : List String :=
  if includes mimeType "pdf" || includes mimeType "document" then pdfDocumentContent
  else if includes mimeType "image" then imageContent
  else plainContent

/-- One element of the `mockContent.map((text, index) => ...)` call of
`performOCR` (lines 130-140).  `rand index` is the `Math.random()` draw
made for this block. -/
def mkBlock (rand : Nat → ℚ) (index : Nat) (text : String) : Block :=
  { id := "block_" ++ toString (index + 1)
    text := trimStr text
    confidence := max (85/100) (95/100 + rand index * (5/100))
    bbox :=
      { x := 50 + ((index % 2 : Nat) : Int) * 300
        y := 80 + (index : Int) * 45
        width := min ((text.length : Int) * 8) 400
        height := if includes text ":" || includes text "•" then 25 else 35 } }

/-- The `mockContent.map` of `performOCR`, with the running index made
explicit. -/
def mkBlocks (rand : Nat → ℚ) : Nat → List String → List Block
  | _, [] => []
  | i, t :: ts => mkBlock rand i t :: mkBlocks rand (i + 1) ts

/-- `detectMockLanguage` (job-processor.ts lines 161-173). -/
def detectMockLanguage (text : String) : String :=
  let lowerText := lowerStr text
  if includes lowerText "hola" || includes lowerText "gracias" || includes lowerText "señor" then "es"
  else if includes lowerText "bonjour" || includes lowerText "merci" || includes lowerText "monsieur" then "fr"
  else if includes lowerText "guten tag" || includes lowerText "danke" || includes lowerText "herr" then "de"
  else if includes lowerText "こんにちは" || includes lowerText "ありがとう" then "ja"
  else if includes lowerText "你好" || includes lowerText "谢谢" then "zh"
  else "en"

/-- The `OCRResult` value `performOCR` assembles (lines 145-149):
blocks from the mock content, `pages = Math.ceil(blocks.length / 10)`,
and the detected language of the joined content. -/
def mockOCRResult (mimeType : String) (rand : Nat → ℚ) : OCRResult :=
  let mockContent := mockContentFor mimeType
  let blocks := mkBlocks rand 0 mockContent
  { blocks
    pages := (blocks.length + 9) / 10
    language := some (detectMockLanguage (String.intercalate " " mockContent)) }

/-- `performOCR` (job-processor.ts lines 82-158).  The mock
implementation never reads `fileBuffer` and never throws: it always
returns a successful fabricated result. -/
def performOCR (fileBuffer : List Nat) (mimeType : String) (rand : Nat → ℚ) :
    Except String OCRResult :=
  .ok (mockOCRResult mimeType rand)

/-! ## Translation adapter (`translateWithGemini`, job-processor.ts lines 176-225) -/

/-- `TranslationRequest` interface (lines 67-72). -/
structure TranslationRequest where
  text : String
  sourceLanguage : String
  targetLanguage : String
  context : Option String
deriving Repr, DecidableEq

/-- `TranslationResult` interface (lines 74-79). -/
structure TranslationResult where
  translatedText : String
  confidence : ℚ
  sourceLanguage : String
  targetLanguage : String
deriving Repr, DecidableEq

/-- The observable part of the Gemini `fetch` response: HTTP success
flag, status code and text, and `data.candidates?.[0]?.content?.parts?.[0]?.text`
(absent fields collapse to `none`). -/
structure FetchResponse where
  ok : Bool
  status : Nat
  statusText : String
  candidateText : Option String
deriving Repr, DecidableEq

/-- `translateWithGemini` (lines 176-225).  `apiKeyConfigured` is the
`env.success && env.data.GEMINI_API_KEY` guard; `response` is the fetch
outcome.  Every thrown error is rewrapped by the catch block as
`Translation failed: ...`.  On success the confidence is the constant
`0.9` (line 217). -/
def translateWithGemini (apiKeyConfigured : Bool) (request : TranslationRequest)
    (response : FetchResponse) : Except String TranslationResult :=
  if !apiKeyConfigured then
    .error "Translation failed: Gemini API key not configured"
  else if !response.ok then
    .error ("Translation failed: Gemini API error: " ++ toString response.status ++ " " ++ response.statusText)
  else
    match response.candidateText with
    | none => .error "Translation failed: No translation returned from Gemini API"
    | some translatedText =>
      if translatedText = "" then
        .error "Translation failed: No translation returned from Gemini API"
      else
        .ok { translatedText := trimStr translatedText
              confidence := 9/10
              sourceLanguage := request.sourceLanguage
              targetLanguage := request.targetLanguage }

/-! ## Job configuration, asset row and analysis result
(`jobConfigSchema` / `analysisResultSchema` of src/lib/validation.ts) -/

/-- A parsed job configuration (the output type of
`jobConfigSchema.safeParse`). -/
structure JobConfig where
  sourceLanguage : String
  targetLanguage : String
  jobType : String
deriving Repr, DecidableEq

/-- The columns of the `assets` row the pipeline selects (job-processor.ts
line 260). -/
structure Asset where
  storage_path : String
  file_type : String
  filename : String
deriving Repr, DecidableEq

/-- One entry of `AnalysisResult.textBlocks` (job-processor.ts
lines 308-314). -/
structure AnalysisBlock where
  id : String
  originalText : String
  translatedText : String
  confidence : ℚ
  position : Bbox
deriving Repr, DecidableEq

/-- The `metadata` object of the analysis result (lines 315-323). -/
structure ResultMetadata where
  ocrEngine : String
  translationEngine : String
  processingTime : Nat
  pages : Nat
  totalBlocks : Nat
  documentType : String
  filename : String
deriving Repr, DecidableEq

/-- The assembled analysis result (lines 299-324, shape of
`analysisResultSchema`). -/
structure AnalysisResult where
  originalText : String
  translatedText : String
  sourceLanguage : String
  targetLanguage : String
  confidence : ℚ
  detectedLanguage : Option String
  textBlocks : List AnalysisBlock
  metadata : ResultMetadata
deriving Repr, DecidableEq

/-- The source-language resolution used both for the per-block requests
(lines 287-289) and the assembled result (lines 302-304):
`sourceLanguage` equal to `auto` resolves to the OCR-detected language,
defaulting to `en`; otherwise the configured source language is used. -/
def resolveSourceLanguage (config : JobConfig) (ocrLanguage : Option String) : String :=
  if config.sourceLanguage = "auto" then ocrLanguage.getD "en" else config.sourceLanguage

/-- The `ocrResult.blocks.map((block, index) => ...)` building
`textBlocks` (lines 308-314), with the JavaScript
`translations[index]?.f || d` defaulting made explicit via `List.get?`. -/
def mkTextBlocks (translations : List TranslationResult) : Nat → List Block → List AnalysisBlock
  | _, [] => []
  | i, block :: rest =>
    { id := block.id
      originalText := block.text
      translatedText := ((translations.get? i).map TranslationResult.translatedText).getD ""
      confidence := ((translations.get? i).map TranslationResult.confidence).getD 0
      position := block.bbox } :: mkTextBlocks translations (i + 1) rest

/-- Step 5 of `handleNewJob` (lines 299-324): assembling the analysis
result.  The overall confidence is the source expression
`translations.reduce((sum, t) => sum + t.confidence, 0) / translations.length`. -/
def assembleAnalysisResult (config : JobConfig) (asset : Asset) (ocrResult : OCRResult)
    (translations : List TranslationResult) (processingTime : Nat) : AnalysisResult :=
  { originalText := String.intercalate "\n" (ocrResult.blocks.map Block.text)
    translatedText := String.intercalate "\n" (translations.map TranslationResult.translatedText)
    sourceLanguage := resolveSourceLanguage config ocrResult.language
    targetLanguage := config.targetLanguage
    confidence := translations.foldl (fun sum t => sum + t.confidence) 0 / (translations.length : ℚ)
    detectedLanguage := ocrResult.language
    textBlocks := mkTextBlocks translations 0 ocrResult.blocks
    metadata :=
      { ocrEngine := "gemini-vision"
        translationEngine := "gemini-pro"
        processingTime := processingTime
        pages := ocrResult.pages
        totalBlocks := ocrResult.blocks.length
        documentType := asset.file_type
        filename := asset.filename } }

/-! ## The per-job processing pipeline (`handleNewJob`, job-processor.ts lines 228-380)

The interaction of the pipeline with the outside world (database reads and
writes, storage download, the Gemini fetch per block, `Math.random()`,
zod validation, wall-clock timestamps) is captured by a `PipelineEnv`
record of call outcomes; `handleNewJob` below is the control
flow of the source over those outcomes, acting on an explicit database state for the
one job being processed. -/

/-- Outcomes of the external calls one run of `handleNewJob` makes, in
pipeline order. -/
structure PipelineEnv where
  /-- Outcome of `jobConfigSchema.safeParse(job.config)` (line 235). -/
  config : Except String JobConfig
  /-- Error of the `status = processing` update, if it failed (line 244). -/
  updProcessingError : Option String
  /-- The `assets` row for `job.asset_id`, if found (line 258). -/
  asset : Option Asset
  /-- Outcome of the storage download (line 268), as raw bytes. -/
  download : Except String (List Nat)
  /-- The `Math.random()` draws `performOCR` makes, one per block index. -/
  rand : Nat → ℚ
  /-- Whether `GEMINI_API_KEY` is configured (line 180). -/
  apiKeyConfigured : Bool
  /-- The Gemini fetch response for the block at each index (line 184). -/
  fetchResponse : Nat → FetchResponse
  /-- Outcome of `analysisResultSchema.safeParse` on the assembled
  result (line 328). -/
  validateOk : Bool
  /-- Error of the `ai_results` insert, if it failed (line 335). -/
  insertError : Option String
  /-- Error of the `status = completed` update, if it failed (line 348). -/
  updCompletedError : Option String
  /-- Whether the `status = failed` update of the catch block (line 366)
  itself succeeds; its error is ignored by the source. -/
  updFailedOk : Bool
  /-- Timestamp written by the `status = processing` update. -/
  procTime : Nat
  /-- Timestamp written by the `status = completed` update. -/
  completeTime : Nat
  /-- Timestamp written by the failure-path update. -/
  failTime : Nat
  /-- `Math.floor(Date.now() - startTime)` at assembly (line 318). -/
  elapsedMs : Nat

/-- The row of the job in `ai_jobs`, restricted to the columns the worker
writes. -/
structure JobRecord where
  status : String
  error_message : Option String
  updated_at : Option Nat
deriving Repr, DecidableEq

/-- Database state relevant to one job: its `ai_jobs` row, its
`ai_results` rows, and a log of the successful status writes as
(previous status, new status) pairs. -/
structure DBState where
  job : JobRecord
  results : List AnalysisResult
  transitions : List (String × String)
deriving Repr, DecidableEq

/-- The row of a pending job before the worker touches it. -/
def pendingDB : DBState :=
  { job := { status := "pending", error_message := none, updated_at := none }
    results := []
    transitions := [] }

/-- A successful `ai_jobs` update `{ status, updated_at }` (lines 244-250
and 348-354): `error_message` is not touched. -/
def setStatus (db : DBState) (newStatus : String) (time : Nat) : DBState :=
  { db with
    job := { status := newStatus, error_message := db.job.error_message, updated_at := some time }
    transitions := db.transitions ++ [(db.job.status, newStatus)] }

/-- A successful `ai_jobs` update `{ status: failed, error_message,
updated_at }` (lines 366-373). -/
def setFailed (db : DBState) (msg : String) (time : Nat) : DBState :=
  { db with
    job := { status := "failed", error_message := some msg, updated_at := some time }
    transitions := db.transitions ++ [(db.job.status, "failed")] }

/-- Appending a row to `ai_results` (lines 335-341). -/
def addResult (db : DBState) (r : AnalysisResult) : DBState :=
  { db with results := db.results ++ [r] }

/-- The final state of one `handleNewJob` run: the database, and the
own outcome of the function (the catch block rethrows the error, line 375). -/
structure RunResult where
  db : DBState
  outcome : Except String Unit

/-- The catch block of `handleNewJob` (lines 362-375): write the failed
status (its own error being ignored) and rethrow. -/
def failJob (env : PipelineEnv) (db : DBState) (msg : String) : RunResult :=
  { db := if env.updFailedOk then setFailed db msg env.failTime else db
    outcome := .error msg }

/-- `Promise.all` over the per-block translation promises (line 295):
all results, or the error of a rejected one. -/
def joinAll : List (Except String TranslationResult) → Except String (List TranslationResult)
  | [] => .ok []
  | .error e :: _ => .error e
  | .ok t :: rest => (joinAll rest).map (t :: ·)

/-- The per-block `translateWithGemini` calls (lines 284-293), with the
running block index made explicit (it selects the fetch response of
this block). -/
def translateBlocks (env : PipelineEnv) (config : JobConfig) (asset : Asset)
    (ocrLanguage : Option String) : Nat → List Block → List (Except String TranslationResult)
  | _, [] => []
  | i, block :: rest =>
    translateWithGemini env.apiKeyConfigured
      { text := block.text
        sourceLanguage := resolveSourceLanguage config ocrLanguage
        targetLanguage := config.targetLanguage
        context := some ("Document: " ++ asset.filename) }
      (env.fetchResponse i) :: translateBlocks env config asset ocrLanguage (i + 1) rest

/-- `handleNewJob` (job-processor.ts lines 228-380): validate the config,
mark the job processing, fetch and download the asset, run OCR,
translate every block with a fail-fast join, assemble and validate the
analysis result, insert it, and mark the job completed; any thrown error
is caught, recorded as a failed status, and rethrown. -/
def handleNewJob (env : PipelineEnv) (db : DBState) : RunResult :=
  match env.config with
  | .error e => failJob env db ("Invalid job configuration: " ++ e)
  | .ok config =>
    match env.updProcessingError with
    | some e => failJob env db ("Failed to update job status: " ++ e)
    | none =>
      let db := setStatus db "processing" env.procTime
      match env.asset with
      | none => failJob env db "Asset not found"
      | some asset =>
        match env.download with
        | .error e => failJob env db ("Failed to download asset: " ++ e)
        | .ok fileBuffer =>
          match performOCR fileBuffer asset.file_type env.rand with
          | .error e => failJob env db e
          | .ok ocrResult =>
            match joinAll (translateBlocks env config asset ocrResult.language 0 ocrResult.blocks) with
            | .error e => failJob env db e
            | .ok translations =>
              let analysisResult :=
                assembleAnalysisResult config asset ocrResult translations env.elapsedMs
              if !env.validateOk then
                failJob env db "Analysis result validation failed"
              else
                match env.insertError with
                | some e => failJob env db ("Failed to save results: " ++ e)
                | none =>
                  let db := addResult db analysisResult
                  match env.updCompletedError with
                  | some e => failJob env db ("Failed to mark job as completed: " ++ e)
                  | none =>
                    { db := setStatus db "completed" env.completeTime
                      outcome := .ok () }

/-! ## `updateJobStatus` (translation-worker.ts lines 44-68) -/

/-- The update payload `updateJobStatus` builds. -/
structure JobUpdate where
  status : String
  updated_at : Nat
  started_at : Option Nat
  completed_at : Option Nat
  error_message : Option String
deriving Repr, DecidableEq

/-- `updateJobStatus` (translation-worker.ts lines 44-68): the update
object written to `ai_jobs`, stamping `started_at` on `processing` and
`completed_at` on `completed` or `failed`. -/
def updateJobStatus (status : String) (now : Nat) (errorMessage : Option String) : JobUpdate :=
  { status := status
    updated_at := now
    started_at := if status = "processing" then some now else none
    completed_at := if status = "completed" || status = "failed" then some now else none
    error_message := errorMessage }

/-! ## Admission control of the orchestrator
(`initializeJobListener` lines 383-437, `processPendingJobs` lines 440-473) -/

/-- `processor.maxConcurrentJobs` (job-processor.ts line 46). -/
def maxConcurrentJobs : Nat := 3

/-- The in-process shared state of the orchestrator: the active-job set
(`processor.activeJobs`) and a log of the `handleNewJob` invocations
started, most recent first. -/
structure OrchState where
  activeJobs : Finset String
  started : List String
deriving DecidableEq

/-- The state of the orchestrator at worker startup (line 43-47). -/
def initialOrchState : OrchState := { activeJobs := ∅, started := [] }

/-- The synchronous admission events of the orchestrator.  `deliver` is
one invocation of the realtime callback of `initializeJobListener`
(lines 396-413); `sweep` is one iteration of the `processPendingJobs`
startup loop (lines 462-472); `finish` is the `finally` block of
`handleNewJob` releasing the slot (line 378). -/
inductive OrchEvent where
  | deliver (jobId : String)
  | sweep (jobId : String)
  | finish (jobId : String)
deriving DecidableEq

/-- One admission event.  Both discovery paths perform the same
synchronous check-then-add: if `activeJobs.size >= maxConcurrentJobs`
the job is skipped, otherwise its id is added to the set and
`handleNewJob` is started (no membership test is made). -/
def orchStep (s : OrchState) : OrchEvent → OrchState
  | .deliver jobId =>
    if s.activeJobs.card ≥ maxConcurrentJobs then s
    else { activeJobs := insert jobId s.activeJobs, started := jobId :: s.started }
  | .sweep jobId =>
    if s.activeJobs.card ≥ maxConcurrentJobs then s
    else { activeJobs := insert jobId s.activeJobs, started := jobId :: s.started }
  | .finish jobId => { s with activeJobs := s.activeJobs.erase jobId }

/-- The orchestrator state after a sequence of admission events from
startup. -/
def orchRun (events : List OrchEvent) : OrchState :=
  events.foldl orchStep initialOrchState

/-! ## Status transition vocabulary -/

/-- The status transitions one pipeline run can write, as established by
the theorems below: the three spec transitions plus the direct
`pending → failed` write that occurs when the pipeline fails before the
job reaches `processing`. -/
def legalTransitions : List (String × String) :=
  [("pending", "processing"), ("processing", "completed"),
   ("processing", "failed"), ("pending", "failed")]

/-- The three transitions the spec declares legal. -/
def specTransitions : List (String × String) :=
  [("pending", "processing"), ("processing", "completed"), ("processing", "failed")]

/-! ## Concrete environments used by witnesses and counterexamples -/

/-- A fetch response whose translation succeeds. -/
def okResponse : FetchResponse :=
  { ok := true, status := 200, statusText := "OK", candidateText := some "Hola" }

/-- A fetch response whose HTTP call failed. -/
def badResponse : FetchResponse :=
  { ok := false, status := 500, statusText := "Internal Server Error", candidateText := none }

/-- A well-formed job configuration. -/
def sampleConfig : JobConfig :=
  { sourceLanguage := "en", targetLanguage := "es", jobType := "translate" }

/-- A sample `assets` row with a plain-text MIME type. -/
def sampleAsset : Asset :=
  { storage_path := "user/doc.txt", file_type := "text/plain", filename := "doc.txt" }

/-- An environment in which every external call succeeds. -/
def envAllOk : PipelineEnv :=
  { config := .ok sampleConfig
    updProcessingError := none
    asset := some sampleAsset
    download := .ok [104, 105]
    rand := fun _ => 0
    apiKeyConfigured := true
    fetchResponse := fun _ => okResponse
    validateOk := true
    insertError := none
    updCompletedError := none
    updFailedOk := true
    procTime := 1
    completeTime := 9
    failTime := 9
    elapsedMs := 8 }

/-- An environment whose config blob fails `jobConfigSchema` validation
(for example `{}`: both language codes are required). -/
def envBadConfig : PipelineEnv :=
  { envAllOk with config := .error "Required sourceLanguage, targetLanguage" }

/-- An environment in which the `assets` row is missing. -/
def envAssetMissing : PipelineEnv :=
  { envAllOk with asset := none }

/-- An environment in which the Gemini call for block 0 fails and the
others succeed. -/
def envBadTranslation : PipelineEnv :=
  { envAllOk with fetchResponse := fun i => if i = 0 then badResponse else okResponse }

/-- An environment in which everything succeeds except the final
`status = completed` update. -/
def envCompleteFails : PipelineEnv :=
  { envAllOk with updCompletedError := some "connection reset" }

/-- The `Math.random()` draws used by witnesses: constantly `0`. -/
def randZero : Nat → ℚ := fun _ => 0

/-- A sample translation request. -/
def sampleRequest : TranslationRequest :=
  { text := "Hello", sourceLanguage := "en", targetLanguage := "es"
    context := some "Document: doc.txt" }

/-- The translation result `translateWithGemini` produces for
`sampleRequest` and `okResponse`. -/
def sampleTranslation : TranslationResult :=
  { translatedText := trimStr "Hola", confidence := 9/10
    sourceLanguage := "en", targetLanguage := "es" }

/-! ## Helper lemmas -/

theorem failJob_outcome (env : PipelineEnv) (db : DBState) (m : String) :
    (failJob env db m).outcome = .error m := rfl

theorem failJob_results (env : PipelineEnv) (db : DBState) (m : String) :
    (failJob env db m).db.results = db.results := by
  unfold failJob setFailed
  split <;> rfl

theorem failJob_status (env : PipelineEnv) (db : DBState) (m : String)
    (h : env.updFailedOk = true) : (failJob env db m).db.job.status = "failed" := by
  unfold failJob setFailed
  rw [h]
  simp

theorem failJob_error_message (env : PipelineEnv) (db : DBState) (m : String)
    (h : env.updFailedOk = true) : (failJob env db m).db.job.error_message = some m := by
  unfold failJob setFailed
  rw [h]
  simp

theorem failJob_updated_at (env : PipelineEnv) (db : DBState) (m : String)
    (h : env.updFailedOk = true) : (failJob env db m).db.job.updated_at = some env.failTime := by
  unfold failJob setFailed
  rw [h]
  simp

theorem failJob_transitions (env : PipelineEnv) (db : DBState) (m : String) :
    (failJob env db m).db.transitions =
      if env.updFailedOk then db.transitions ++ [(db.job.status, "failed")] else db.transitions := by
  unfold failJob setFailed
  split <;> simp_all

theorem setStatus_results (db : DBState) (s : String) (t : Nat) :
    (setStatus db s t).results = db.results := rfl

theorem setStatus_status (db : DBState) (s : String) (t : Nat) :
    (setStatus db s t).job.status = s := rfl

theorem setStatus_transitions (db : DBState) (s : String) (t : Nat) :
    (setStatus db s t).transitions = db.transitions ++ [(db.job.status, s)] := rfl

theorem addResult_results (db : DBState) (r : AnalysisResult) :
    (addResult db r).results = db.results ++ [r] := rfl

theorem addResult_status (db : DBState) (r : AnalysisResult) :
    (addResult db r).job.status = db.job.status := rfl

theorem addResult_transitions (db : DBState) (r : AnalysisResult) :
    (addResult db r).transitions = db.transitions := rfl

/-- Exhaustive characterization of one `handleNewJob` run.  Exactly one
of four shapes occurs: failure before the `processing` update succeeded,
failure after it (but before any result row exists), failure of the
final `completed` update after the result row was inserted, or full
success. -/
theorem handleNewJob_cases (env : PipelineEnv) (db : DBState) :
    (∃ m, handleNewJob env db = failJob env db m ∧
      (env.config.isOk = false ∨ env.updProcessingError ≠ none)) ∨
    (∃ m, handleNewJob env db = failJob env (setStatus db "processing" env.procTime) m) ∨
    (∃ config asset translations e,
      env.config = .ok config ∧ env.asset = some asset ∧
      joinAll (translateBlocks env config asset (mockOCRResult asset.file_type env.rand).language 0
        (mockOCRResult asset.file_type env.rand).blocks) = .ok translations ∧
      env.updCompletedError = some e ∧
      handleNewJob env db =
        failJob env
          (addResult (setStatus db "processing" env.procTime)
            (assembleAnalysisResult config asset (mockOCRResult asset.file_type env.rand)
              translations env.elapsedMs))
          ("Failed to mark job as completed: " ++ e)) ∨
    (∃ config asset translations,
      env.config = .ok config ∧ env.asset = some asset ∧
      joinAll (translateBlocks env config asset (mockOCRResult asset.file_type env.rand).language 0
        (mockOCRResult asset.file_type env.rand).blocks) = .ok translations ∧
      handleNewJob env db =
        { db := setStatus
            (addResult (setStatus db "processing" env.procTime)
              (assembleAnalysisResult config asset (mockOCRResult asset.file_type env.rand)
                translations env.elapsedMs))
            "completed" env.completeTime
          outcome := .ok () }) := by
  cases hc : env.config with
  | error e =>
    refine Or.inl ⟨"Invalid job configuration: " ++ e, ?_, Or.inl rfl⟩
    unfold handleNewJob
    rw [hc]
  | ok config =>
    cases hp : env.updProcessingError with
    | some e =>
      refine Or.inl ⟨"Failed to update job status: " ++ e, ?_, Or.inr (by simp)⟩
      unfold handleNewJob
      rw [hc, hp]
    | none =>
      cases ha : env.asset with
      | none =>
        refine Or.inr (Or.inl ⟨"Asset not found", ?_⟩)
        unfold handleNewJob
        rw [hc, hp, ha]
      | some asset =>
        cases hd : env.download with
        | error e =>
          refine Or.inr (Or.inl ⟨"Failed to download asset: " ++ e, ?_⟩)
          unfold handleNewJob
          rw [hc, hp, ha, hd]
        | ok buf =>
          cases hj : joinAll (translateBlocks env config asset
              (mockOCRResult asset.file_type env.rand).language 0
              (mockOCRResult asset.file_type env.rand).blocks) with
          | error e =>
            refine Or.inr (Or.inl ⟨e, ?_⟩)
            unfold handleNewJob performOCR
            rw [hc, hp, ha, hd]
            simp [hj]
          | ok translations =>
            cases hv : env.validateOk with
            | false =>
              refine Or.inr (Or.inl ⟨"Analysis result validation failed", ?_⟩)
              unfold handleNewJob performOCR
              rw [hc, hp, ha, hd]
              simp [hj, hv]
            | true =>
              cases hi : env.insertError with
              | some e =>
                refine Or.inr (Or.inl ⟨"Failed to save results: " ++ e, ?_⟩)
                unfold handleNewJob performOCR
                rw [hc, hp, ha, hd]
                simp [hj, hv, hi]
              | none =>
                cases hu : env.updCompletedError with
                | some e =>
                  refine Or.inr (Or.inr (Or.inl
                    ⟨config, asset, translations, e, rfl, rfl, hj, rfl, ?_⟩))
                  unfold handleNewJob performOCR
                  rw [hc, hp, ha, hd]
                  simp [hj, hv, hi, hu]
                | none =>
                  refine Or.inr (Or.inr (Or.inr ⟨config, asset, translations, rfl, rfl, hj, ?_⟩))
                  unfold handleNewJob performOCR
                  rw [hc, hp, ha, hd]
                  simp [hj, hv, hi, hu]

theorem translateBlocks_length (env : PipelineEnv) (config : JobConfig) (asset : Asset)
    (lang : Option String) : ∀ (i : Nat) (blocks : List Block),
    (translateBlocks env config asset lang i blocks).length = blocks.length := by
  intro i blocks
  induction blocks generalizing i with
  | nil => rfl
  | cons b rest ih => simp [translateBlocks, ih]

theorem mkTextBlocks_length (translations : List TranslationResult) :
    ∀ (i : Nat) (blocks : List Block),
    (mkTextBlocks translations i blocks).length = blocks.length := by
  intro i blocks
  induction blocks generalizing i with
  | nil => rfl
  | cons b rest ih => simp [mkTextBlocks, ih]

theorem joinAll_ok_length : ∀ (l : List (Except String TranslationResult))
    (ts : List TranslationResult), joinAll l = .ok ts → ts.length = l.length := by
  intro l
  induction l with
  | nil =>
    intro ts h
    simp only [joinAll] at h
    cases h
    rfl
  | cons x rest ih =>
    intro ts h
    cases x with
    | error e => simp [joinAll] at h
    | ok t =>
      simp only [joinAll] at h
      cases hr : joinAll rest with
      | error e => rw [hr] at h; simp [Except.map] at h
      | ok ts' =>
        rw [hr] at h
        simp only [Except.map] at h
        cases h
        simp [ih ts' hr]

theorem joinAll_ok_of_all_ok : ∀ (l : List (Except String TranslationResult))
    (ts : List TranslationResult), joinAll l = .ok ts →
    ∀ x ∈ l, ∃ t, x = .ok t := by
  intro l
  induction l with
  | nil => intro ts _ x hx; cases hx
  | cons x rest ih =>
    intro ts h y hy
    cases x with
    | error e => simp [joinAll] at h
    | ok t =>
      simp only [joinAll] at h
      cases hr : joinAll rest with
      | error e => rw [hr] at h; simp [Except.map] at h
      | ok ts' =>
        rcases List.mem_cons.mp hy with rfl | hmem
        · exact ⟨t, rfl⟩
        · exact ih ts' hr y hmem

theorem confidence_foldl_eq_sum : ∀ (ts : List TranslationResult) (a : ℚ),
    ts.foldl (fun sum t => sum + t.confidence) a =
      a + (ts.map TranslationResult.confidence).sum := by
  intro ts
  induction ts with
  | nil => intro a; simp
  | cons t rest ih =>
    intro a
    simp [ih, add_assoc]

theorem mkTextBlocks_map_confidence_aux : ∀ (blocks : List Block)
    (pre ts : List TranslationResult), ts.length = blocks.length →
    (mkTextBlocks (pre ++ ts) pre.length blocks).map AnalysisBlock.confidence =
      ts.map TranslationResult.confidence := by
  intro blocks
  induction blocks with
  | nil =>
    intro pre ts h
    rw [List.length_nil, List.length_eq_zero] at h
    subst h
    rfl
  | cons b rest ih =>
    intro pre ts h
    cases ts with
    | nil => simp at h
    | cons t ts' =>
      have hget : (pre ++ t :: ts').get? pre.length = some t := by
        rw [List.get?_append_right (le_refl pre.length)]
        simp
      have happ : pre ++ t :: ts' = (pre ++ [t]) ++ ts' := by
        simp
      have hlen : (pre ++ [t]).length = pre.length + 1 := by
        simp
      have := ih (pre ++ [t]) ts' (by simpa using h)
      rw [hlen, ← happ] at this
      simp only [mkTextBlocks, List.map_cons, hget, Option.map_some, Option.getD_some, this]
      rfl

theorem mkTextBlocks_map_confidence (ts : List TranslationResult) (blocks : List Block)
    (h : ts.length = blocks.length) :
    (mkTextBlocks ts 0 blocks).map AnalysisBlock.confidence =
      ts.map TranslationResult.confidence := by
  have := mkTextBlocks_map_confidence_aux blocks [] ts h
  simpa using this

theorem sum_map_const_confidence : ∀ (ts : List TranslationResult) (c : ℚ),
    (∀ t ∈ ts, t.confidence = c) →
    (ts.map TranslationResult.confidence).sum = (ts.length : ℚ) * c := by
  intro ts c
  induction ts with
  | nil => intro _; simp
  | cons t rest ih =>
    intro h
    have ht := h t (List.mem_cons_self t rest)
    have hrest := ih fun x hx => h x (List.mem_cons_of_mem _ hx)
    simp [ht, hrest]
    ring

theorem mockOCRResult_blocks (mime : String) (rand : Nat → ℚ) :
    (mockOCRResult mime rand).blocks = mkBlocks rand 0 (mockContentFor mime) := rfl

theorem mockContentFor_nonempty (mime : String) : ∀ t ∈ mockContentFor mime, 0 < t.length := by
  unfold mockContentFor
  split
  · decide
  · split
    · decide
    · decide

theorem mkBlocks_bounds (rand : Nat → ℚ) (hrand : ∀ n, 0 ≤ rand n ∧ rand n < 1) :
    ∀ (ts : List String) (i : Nat), (∀ t ∈ ts, 0 < t.length) →
    ∀ b ∈ mkBlocks rand i ts,
      0 ≤ b.confidence ∧ b.confidence ≤ 1 ∧ 0 ≤ b.bbox.x ∧ 0 ≤ b.bbox.y ∧
      0 < b.bbox.width ∧ 0 < b.bbox.height := by
  intro ts
  induction ts with
  | nil =>
    intro i _ b hb
    cases hb
  | cons t rest ih =>
    intro i hts b hb
    rcases List.mem_cons.mp hb with rfl | hmem
    · refine ⟨?_, ?_, ?_, ?_, ?_, ?_⟩
      · exact le_trans (by norm_num) (le_max_left _ _)
      · refine max_le (by norm_num) ?_
        have h0 := (hrand i).1
        have h1 := (hrand i).2
        nlinarith
      · have : (0 : Int) ≤ ((i % 2 : Nat) : Int) := Int.natCast_nonneg _
        simp only [mkBlock]
        nlinarith
      · have : (0 : Int) ≤ ((i : Nat) : Int) := Int.natCast_nonneg _
        simp only [mkBlock]
        nlinarith
      · have hlen : 0 < t.length := hts t (List.mem_cons_self t rest)
        have : (0 : Int) < (t.length : Int) := by exact_mod_cast hlen
        simp only [mkBlock]
        refine lt_min ?_ (by norm_num)
        nlinarith
      · simp only [mkBlock]
        split <;> norm_num
    · exact ih (i + 1) (fun x hx => hts x (List.mem_cons_of_mem _ hx)) b hmem

theorem orchStep_card_le (s : OrchState) (e : OrchEvent)
    (h : s.activeJobs.card ≤ maxConcurrentJobs) :
    (orchStep s e).activeJobs.card ≤ maxConcurrentJobs := by
  cases e with
  | deliver j =>
    simp only [orchStep]
    split
    · exact h
    · next hlt =>
      have h1 : s.activeJobs.card < maxConcurrentJobs := Nat.lt_of_not_le hlt
      have h2 := Finset.card_insert_le j s.activeJobs
      exact Nat.le_trans h2 h1
  | sweep j =>
    simp only [orchStep]
    split
    · exact h
    · next hlt =>
      have h1 : s.activeJobs.card < maxConcurrentJobs := Nat.lt_of_not_le hlt
      have h2 := Finset.card_insert_le j s.activeJobs
      exact Nat.le_trans h2 h1
  | finish j =>
    simp only [orchStep]
    exact Nat.le_trans Finset.card_erase_le h

theorem foldl_orchStep_card_le : ∀ (events : List OrchEvent) (s : OrchState),
    s.activeJobs.card ≤ maxConcurrentJobs →
    (events.foldl orchStep s).activeJobs.card ≤ maxConcurrentJobs := by
  intro events
  induction events with
  | nil => intro s h; exact h
  | cons e rest ih =>
    intro s h
    exact ih (orchStep s e) (orchStep_card_le s e h)

/-! ## Claim theorems -/

/-- C1: at every reachable state of the orchestrator (job listener and
startup sweep combined), the active-job set never holds more than the
configured maximum of 3 jobs: both discovery paths check capacity and
insert synchronously, and finishing a job only shrinks the set. -/
theorem active_jobs_bounded (events : List OrchEvent) :
    (orchRun events).activeJobs.card ≤ maxConcurrentJobs :=
  foldl_orchStep_card_le events initialOrchState
    (by simp [initialOrchState, maxConcurrentJobs])

/-- C3 counterexample: delivering the same pending-job notification
twice while the job is still in the active set and the set is below the
cap does NOT result in exactly one pipeline execution — the listener
performs no membership check, so `handleNewJob` is started twice for the
same job id. -/
theorem duplicate_delivery_not_ignored :
    "job-1" ∈ (orchRun [.deliver "job-1"]).activeJobs ∧
    (orchRun [.deliver "job-1"]).activeJobs.card < maxConcurrentJobs ∧
    (orchRun [.deliver "job-1", .deliver "job-1"]).started.count "job-1" = 2 := by
  refine ⟨by decide, by decide, by decide⟩

/-- C3 (amended): when the same job id is re-delivered while still in
the active set and the set is below the cap, the duplicate is NOT
ignored: the size check passes, the re-inserted id leaves the set
unchanged, and a second pipeline execution is started.  Duplicates are
only dropped when the set is at capacity. -/
theorem duplicate_delivery_starts_second_run (s : OrchState) (j : String)
    (hmem : j ∈ s.activeJobs) (hcard : s.activeJobs.card < maxConcurrentJobs) :
    (orchStep s (.deliver j)).activeJobs = s.activeJobs ∧
    (orchStep s (.deliver j)).started = j :: s.started := by
  have hnot : ¬ s.activeJobs.card ≥ maxConcurrentJobs := Nat.not_le.mpr hcard
  simp only [orchStep, if_neg hnot]
  exact ⟨Finset.insert_eq_self.mpr hmem, trivial⟩

theorem duplicate_delivery_starts_second_run_witness :
    ("job-1" ∈ (orchRun [.deliver "job-1"]).activeJobs ∧
     (orchRun [.deliver "job-1"]).activeJobs.card < maxConcurrentJobs) ∧
    ((orchStep (orchRun [.deliver "job-1"]) (.deliver "job-1")).activeJobs =
        (orchRun [.deliver "job-1"]).activeJobs ∧
     (orchStep (orchRun [.deliver "job-1"]) (.deliver "job-1")).started =
        "job-1" :: (orchRun [.deliver "job-1"]).started) :=
  ⟨⟨by decide, by decide⟩,
   duplicate_delivery_starts_second_run (orchRun [.deliver "job-1"]) "job-1"
     (by decide) (by decide)⟩

/-- C5 counterexample: on the empty buffer with a supported MIME type,
`performOCR` returns a successful result (with 13 fabricated blocks)
instead of failing with an OCR-failure error. -/
theorem performOCR_empty_buffer_succeeds :
    (performOCR [] "application/pdf" randZero).isOk = true ∧
    ∃ res, performOCR [] "application/pdf" randZero = .ok res ∧ res.blocks.length = 13 :=
  ⟨rfl, mockOCRResult "application/pdf" randZero, rfl, rfl⟩

/-- C5 (amended): for every MIME type, `performOCR` on the empty buffer
succeeds rather than failing; its result is fabricated independently of
the buffer content (the mock never reads the buffer at all). -/
theorem performOCR_ignores_buffer (b1 b2 : List Nat) (mime : String) (rand : Nat → ℚ) :
    performOCR b1 mime rand = performOCR b2 mime rand ∧
    (performOCR b1 mime rand).isOk = true :=
  ⟨rfl, rfl⟩

/-- C9: every TextBlock produced by the OCR adapter — for any buffer,
MIME type, and `Math.random()` draws in [0,1) — has confidence in
[0,1], non-negative bounding-box x and y, and strictly positive width
and height. -/
theorem ocr_block_bounds (fileBuffer : List Nat) (mimeType : String) (rand : Nat → ℚ)
    (res : OCRResult) (hrand : ∀ n, 0 ≤ rand n ∧ rand n < 1)
    (hres : performOCR fileBuffer mimeType rand = .ok res) :
    ∀ b ∈ res.blocks, 0 ≤ b.confidence ∧ b.confidence ≤ 1 ∧
      0 ≤ b.bbox.x ∧ 0 ≤ b.bbox.y ∧ 0 < b.bbox.width ∧ 0 < b.bbox.height := by
  have h2 : Except.ok (mockOCRResult mimeType rand) = Except.ok res := hres
  injection h2 with h2
  subst h2
  rw [mockOCRResult_blocks]
  exact mkBlocks_bounds rand hrand (mockContentFor mimeType) 0
    (mockContentFor_nonempty mimeType)

theorem ocr_block_bounds_witness :
    (∀ n, 0 ≤ randZero n ∧ randZero n < 1) ∧
    (∀ b ∈ (mockOCRResult "text/plain" randZero).blocks,
      0 ≤ b.confidence ∧ b.confidence ≤ 1 ∧ 0 ≤ b.bbox.x ∧ 0 ≤ b.bbox.y ∧
      0 < b.bbox.width ∧ 0 < b.bbox.height) :=
  ⟨fun _ => ⟨le_refl 0, zero_lt_one⟩,
   ocr_block_bounds [] "text/plain" randZero (mockOCRResult "text/plain" randZero)
     (fun _ => ⟨le_refl 0, zero_lt_one⟩) rfl⟩

/-- C2 counterexample: a job whose config blob fails validation is moved
directly from `pending` to `failed` by the catch block — the claimed
transition set {pending→processing, processing→completed,
processing→failed} is violated. -/
theorem pending_to_failed_directly :
    (handleNewJob envBadConfig pendingDB).db.transitions = [("pending", "failed")] ∧
    ("pending", "failed") ∉ specTransitions := by
  exact ⟨by decide, by decide⟩

/-- C2 (amended): in one pipeline run started on a pending job, every
status transition written is among pending→processing,
processing→completed, processing→failed, and — when the pipeline fails
before the job record reaches `processing` (invalid config blob, or the
processing update itself failing) — the direct pending→failed write; no
backward transition and no transition out of a terminal state occurs. -/
theorem job_status_transitions (env : PipelineEnv) :
    ∀ t ∈ (handleNewJob env pendingDB).db.transitions, t ∈ legalTransitions := by
  intro t ht
  rcases handleNewJob_cases env pendingDB with
    ⟨m, heq, -⟩ | ⟨m, heq⟩ | ⟨c, a, ts, e, -, -, -, -, heq⟩ | ⟨c, a, ts, -, -, -, heq⟩ <;>
    rw [heq] at ht <;>
    by_cases hf : env.updFailedOk <;>
    simp_all [failJob_transitions, setStatus_transitions, addResult_transitions,
      pendingDB, setStatus, addResult, legalTransitions] <;>
    tauto

theorem job_status_transitions_witness :
    ("pending", "processing") ∈ (handleNewJob envAllOk pendingDB).db.transitions ∧
    ("pending", "processing") ∈ legalTransitions :=
  ⟨by decide, job_status_transitions envAllOk ("pending", "processing") (by decide)⟩

/-- C4: a job in which the translation call for at least one block fails
ends `failed`, with no AnalysisResult row inserted and the error
propagated — the fail-fast join makes the result insert unreachable on
any translation error. -/
theorem translation_failure_all_or_nothing (env : PipelineEnv) (db : DBState)
    (config : JobConfig) (asset : Asset)
    (hc : env.config = .ok config) (ha : env.asset = some asset)
    (hf : env.updFailedOk = true)
    (herr : ∃ x ∈ translateBlocks env config asset
        (mockOCRResult asset.file_type env.rand).language 0
        (mockOCRResult asset.file_type env.rand).blocks, x.isOk = false) :
    (handleNewJob env db).db.job.status = "failed" ∧
    (handleNewJob env db).db.results = db.results ∧
    ∃ m, (handleNewJob env db).outcome = .error m := by
  rcases handleNewJob_cases env db with
    ⟨m, heq, -⟩ | ⟨m, heq⟩ | ⟨c, a, ts, e, hc2, ha2, hj, -, heq⟩ |
    ⟨c, a, ts, hc2, ha2, hj, heq⟩
  · rw [heq]
    exact ⟨failJob_status _ _ _ hf, failJob_results _ _ _, m, failJob_outcome _ _ _⟩
  · rw [heq]
    refine ⟨failJob_status _ _ _ hf, ?_, m, failJob_outcome _ _ _⟩
    rw [failJob_results, setStatus_results]
  · exfalso
    rw [hc] at hc2
    injection hc2 with hc2
    rw [ha] at ha2
    injection ha2 with ha2
    subst hc2
    subst ha2
    obtain ⟨x, hx, hbad⟩ := herr
    obtain ⟨tr, rfl⟩ := joinAll_ok_of_all_ok _ ts hj x hx
    simp [Except.isOk, Except.toBool] at hbad
  · exfalso
    rw [hc] at hc2
    injection hc2 with hc2
    rw [ha] at ha2
    injection ha2 with ha2
    subst hc2
    subst ha2
    obtain ⟨x, hx, hbad⟩ := herr
    obtain ⟨tr, rfl⟩ := joinAll_ok_of_all_ok _ ts hj x hx
    simp [Except.isOk, Except.toBool] at hbad

theorem translation_failure_all_or_nothing_witness :
    (∃ x ∈ translateBlocks envBadTranslation sampleConfig sampleAsset
        (mockOCRResult sampleAsset.file_type envBadTranslation.rand).language 0
        (mockOCRResult sampleAsset.file_type envBadTranslation.rand).blocks,
        x.isOk = false) ∧
    ((handleNewJob envBadTranslation pendingDB).db.job.status = "failed" ∧
     (handleNewJob envBadTranslation pendingDB).db.results = pendingDB.results ∧
     ∃ m, (handleNewJob envBadTranslation pendingDB).outcome = .error m) :=
  ⟨by decide,
   translation_failure_all_or_nothing envBadTranslation pendingDB sampleConfig sampleAsset
     rfl rfl rfl (by decide)⟩

/-- C6: for every job that completes, the overall confidence stored in
its AnalysisResult equals the arithmetic mean of the per-block
confidences (one per OCR text block); the zero-block case is left
open, mirroring the spec. -/
theorem overall_confidence_is_mean (env : PipelineEnv) (db : DBState)
    (hok : (handleNewJob env db).outcome = .ok ()) :
    ∃ r, (handleNewJob env db).db.results = db.results ++ [r] ∧
      r.metadata.totalBlocks = r.textBlocks.length ∧
      (r.textBlocks.length ≠ 0 →
        r.confidence =
          (r.textBlocks.map AnalysisBlock.confidence).sum / (r.textBlocks.length : ℚ)) := by
  rcases handleNewJob_cases env db with
    ⟨m, heq, -⟩ | ⟨m, heq⟩ | ⟨c, a, ts, e, -, -, -, -, heq⟩ | ⟨c, a, ts, -, -, hj, heq⟩
  · rw [heq, failJob_outcome] at hok
    exact Except.noConfusion hok
  · rw [heq, failJob_outcome] at hok
    exact Except.noConfusion hok
  · rw [heq, failJob_outcome] at hok
    exact Except.noConfusion hok
  · rw [heq]
    refine ⟨assembleAnalysisResult c a (mockOCRResult a.file_type env.rand) ts env.elapsedMs,
      ?_, ?_, ?_⟩
    · show (setStatus _ "completed" _).results = _
      rw [setStatus_results, addResult_results, setStatus_results]
    · show (mockOCRResult a.file_type env.rand).blocks.length =
        (mkTextBlocks ts 0 (mockOCRResult a.file_type env.rand).blocks).length
      rw [mkTextBlocks_length]
    · intro hne
      have hlen1 : ts.length = (mockOCRResult a.file_type env.rand).blocks.length := by
        rw [joinAll_ok_length _ ts hj, translateBlocks_length]
      have hmap := mkTextBlocks_map_confidence ts (mockOCRResult a.file_type env.rand).blocks hlen1
      have htb : (assembleAnalysisResult c a (mockOCRResult a.file_type env.rand)
          ts env.elapsedMs).textBlocks =
          mkTextBlocks ts 0 (mockOCRResult a.file_type env.rand).blocks := rfl
      rw [htb, hmap, mkTextBlocks_length]
      show ts.foldl (fun sum t => sum + t.confidence) 0 / (ts.length : ℚ) = _
      rw [confidence_foldl_eq_sum, zero_add, hlen1]

theorem overall_confidence_is_mean_witness :
    (handleNewJob envAllOk pendingDB).outcome = .ok () ∧
    ∃ r, (handleNewJob envAllOk pendingDB).db.results = pendingDB.results ++ [r] ∧
      r.metadata.totalBlocks = r.textBlocks.length ∧
      (r.textBlocks.length ≠ 0 →
        r.confidence =
          (r.textBlocks.map AnalysisBlock.confidence).sum / (r.textBlocks.length : ℚ)) :=
  ⟨by decide, overall_confidence_is_mean envAllOk pendingDB (by decide)⟩

/-- C7 counterexample: when the result insert succeeds but the
subsequent completed-status update fails, the job ends `failed` while
one AnalysisResult row for it remains persisted. -/
theorem failed_job_with_result_row :
    (handleNewJob envCompleteFails pendingDB).db.job.status = "failed" ∧
    (handleNewJob envCompleteFails pendingDB).db.results.length = 1 :=
  ⟨by decide, by decide⟩

/-- C7 (amended): a job that completes has exactly one AnalysisResult
row, created exactly once; a job that ends failed has at most one row,
and has one exactly in the path where the result insert succeeded and
the subsequent completed-status update failed (the inserted row is not
rolled back). -/
theorem completed_result_exactly_once (env : PipelineEnv) (db : DBState)
    (h0 : db.results = []) :
    ((handleNewJob env db).outcome = .ok () →
      (handleNewJob env db).db.results.length = 1) ∧
    ((handleNewJob env db).outcome ≠ .ok () →
      (handleNewJob env db).db.results.length ≤ 1) ∧
    ((handleNewJob env db).outcome ≠ .ok () →
      (handleNewJob env db).db.results.length = 1 → env.updCompletedError ≠ none) := by
  rcases handleNewJob_cases env db with
    ⟨m, heq, -⟩ | ⟨m, heq⟩ | ⟨c, a, ts, e, -, -, -, hu, heq⟩ | ⟨c, a, ts, -, -, -, heq⟩ <;>
    rw [heq]
  · rw [failJob_outcome, failJob_results, h0]
    exact ⟨fun h => Except.noConfusion h, fun _ => by simp, fun _ h => by simp at h⟩
  · rw [failJob_outcome, failJob_results, setStatus_results, h0]
    exact ⟨fun h => Except.noConfusion h, fun _ => by simp, fun _ h => by simp at h⟩
  · rw [failJob_outcome, failJob_results, addResult_results, setStatus_results, h0]
    exact ⟨fun h => Except.noConfusion h, fun _ => by simp, fun _ _ => by simp [hu]⟩
  · refine ⟨fun _ => ?_, fun h => absurd rfl h, fun h => absurd rfl h⟩
    show (setStatus _ "completed" _).results.length = 1
    rw [setStatus_results, addResult_results, setStatus_results, h0]
    rfl

theorem completed_result_exactly_once_witness :
    pendingDB.results = [] ∧
    (((handleNewJob envAllOk pendingDB).outcome = .ok () →
       (handleNewJob envAllOk pendingDB).db.results.length = 1) ∧
     ((handleNewJob envAllOk pendingDB).outcome ≠ .ok () →
       (handleNewJob envAllOk pendingDB).db.results.length ≤ 1) ∧
     ((handleNewJob envAllOk pendingDB).outcome ≠ .ok () →
       (handleNewJob envAllOk pendingDB).db.results.length = 1 →
       envAllOk.updCompletedError ≠ none)) :=
  ⟨rfl, completed_result_exactly_once envAllOk pendingDB rfl⟩

/-- C8: any error raised in the pipeline after admission (steps (b)-(h),
here: any raised error once the config parsed and the processing update
succeeded) is caught at the per-job boundary; the job record is updated
to `failed` with the message of the error in `error_message` and the
timestamp stamped, no further transition follows (no retry), and the
`updateJobStatus` helper stamps `completed_at` for a failed status. -/
theorem failure_recorded (env : PipelineEnv) (msg : String)
    (hc : env.config.isOk = true) (hp : env.updProcessingError = none)
    (hf : env.updFailedOk = true)
    (houtcome : (handleNewJob env pendingDB).outcome = .error msg) :
    (handleNewJob env pendingDB).db.job.status = "failed" ∧
    (handleNewJob env pendingDB).db.job.error_message = some msg ∧
    (handleNewJob env pendingDB).db.job.updated_at = some env.failTime ∧
    (handleNewJob env pendingDB).db.transitions =
      [("pending", "processing"), ("processing", "failed")] ∧
    (∀ t m, (updateJobStatus "failed" t m).completed_at = some t) := by
  rcases handleNewJob_cases env pendingDB with
    ⟨m, heq, hpre⟩ | ⟨m, heq⟩ | ⟨c, a, ts, e, -, -, -, -, heq⟩ | ⟨c, a, ts, -, -, -, heq⟩
  · exfalso
    rcases hpre with h | h
    · rw [hc] at h
      exact Bool.noConfusion h
    · exact h hp
  · rw [heq, failJob_outcome] at houtcome
    injection houtcome with hm
    subst hm
    rw [heq]
    refine ⟨failJob_status _ _ _ hf, failJob_error_message _ _ _ hf,
      failJob_updated_at _ _ _ hf, ?_, fun t m2 => by simp [updateJobStatus]⟩
    rw [failJob_transitions]
    simp [hf, setStatus_transitions, pendingDB, setStatus]
  · rw [heq, failJob_outcome] at houtcome
    injection houtcome with hm
    subst hm
    rw [heq]
    refine ⟨failJob_status _ _ _ hf, failJob_error_message _ _ _ hf,
      failJob_updated_at _ _ _ hf, ?_, fun t m2 => by simp [updateJobStatus]⟩
    rw [failJob_transitions]
    simp [hf, setStatus_transitions, addResult_transitions, addResult, pendingDB, setStatus]
  · rw [heq] at houtcome
    exact Except.noConfusion houtcome

theorem failure_recorded_witness :
    (envAssetMissing.config.isOk = true ∧ envAssetMissing.updProcessingError = none ∧
     envAssetMissing.updFailedOk = true ∧
     (handleNewJob envAssetMissing pendingDB).outcome = .error "Asset not found") ∧
    ((handleNewJob envAssetMissing pendingDB).db.job.status = "failed" ∧
     (handleNewJob envAssetMissing pendingDB).db.job.error_message = some "Asset not found" ∧
     (handleNewJob envAssetMissing pendingDB).db.job.updated_at = some envAssetMissing.failTime ∧
     (handleNewJob envAssetMissing pendingDB).db.transitions =
       [("pending", "processing"), ("processing", "failed")] ∧
     (∀ t m, (updateJobStatus "failed" t m).completed_at = some t)) :=
  ⟨⟨rfl, rfl, rfl, by decide⟩,
   failure_recorded envAssetMissing "Asset not found" rfl rfl rfl (by decide)⟩

/-- C10 (implicit): `translateWithGemini` returns the constant
confidence 0.9 on every successful call, independent of input and
response content; consequently an AnalysisResult assembled from
successful translations (one per OCR block) has overall confidence
exactly 0.9 and every textBlocks entry has confidence exactly 0.9. -/
theorem translation_confidence_constant :
    (∀ (apiKey : Bool) (req : TranslationRequest) (resp : FetchResponse)
       (r : TranslationResult),
      translateWithGemini apiKey req resp = .ok r → r.confidence = 9/10) ∧
    (∀ (config : JobConfig) (asset : Asset) (ocr : OCRResult)
       (ts : List TranslationResult) (ms : Nat),
      (∀ t ∈ ts, t.confidence = 9/10) → ts ≠ [] → ts.length = ocr.blocks.length →
      (assembleAnalysisResult config asset ocr ts ms).confidence = 9/10 ∧
      ∀ b ∈ (assembleAnalysisResult config asset ocr ts ms).textBlocks,
        b.confidence = 9/10) := by
  constructor
  · intro apiKey req resp r h
    unfold translateWithGemini at h
    split at h
    · exact Except.noConfusion h
    · split at h
      · exact Except.noConfusion h
      · split at h
        · exact Except.noConfusion h
        · split at h
          · exact Except.noConfusion h
          · injection h with h
            subst h
            rfl
  · intro config asset ocr ts ms hconf hne hlen
    constructor
    · show ts.foldl (fun sum t => sum + t.confidence) 0 / (ts.length : ℚ) = 9/10
      rw [confidence_foldl_eq_sum, zero_add, sum_map_const_confidence ts (9/10) hconf]
      have hz : (ts.length : ℚ) ≠ 0 :=
        Nat.cast_ne_zero.mpr (fun h0 => hne (List.length_eq_zero.mp h0))
      exact mul_div_cancel_left₀ _ hz
    · intro b hb
      have hb2 : b ∈ mkTextBlocks ts 0 ocr.blocks := hb
      have hmem : b.confidence ∈ (mkTextBlocks ts 0 ocr.blocks).map AnalysisBlock.confidence :=
        List.mem_map_of_mem _ hb2
      rw [mkTextBlocks_map_confidence ts ocr.blocks hlen] at hmem
      obtain ⟨t, ht, heq⟩ := List.mem_map.mp hmem
      rw [← heq]
      exact hconf t ht

theorem translation_confidence_constant_witness :
    (translateWithGemini true sampleRequest okResponse = .ok sampleTranslation ∧
     List.replicate 4 sampleTranslation ≠ [] ∧
     (List.replicate 4 sampleTranslation).length =
       (mockOCRResult "text/plain" randZero).blocks.length) ∧
    (sampleTranslation.confidence = 9/10 ∧
     (assembleAnalysisResult sampleConfig sampleAsset (mockOCRResult "text/plain" randZero)
        (List.replicate 4 sampleTranslation) 8).confidence = 9/10) :=
  ⟨⟨rfl, by simp, rfl⟩,
   translation_confidence_constant.1 true sampleRequest okResponse sampleTranslation rfl,
   (translation_confidence_constant.2 sampleConfig sampleAsset
      (mockOCRResult "text/plain" randZero) (List.replicate 4 sampleTranslation) 8
      (fun t ht => by rw [List.eq_of_mem_replicate ht]; rfl) (by simp) rfl).1⟩

end VisualTranslator
